import Mathlib

/-!
Shallow embedding of the data-shaping logic of `app.py` (the Quant_solution
dashboard).  The script loads CSV tables into pandas DataFrames and derives
display tables from them: an inner merge of the weight table with the signal
table's `Industry` column (line 30), an index-aligned join and Pearson
correlation for the information coefficient (lines 49-51), a sort of the
signal table by `Alpha_Signal` (line 68), a `Lambda` filter and pivot of the
parameter grid (lines 83-85), and a contribution table with a derived
`Position` column sorted descending by `Contribution` (lines 115-118).

Tables are modelled as lists of typed rows in file order; float cells are
modelled as rationals, with `Option ℚ` where a claim depends on a NaN cell.
pandas behaviours that matter here and are modelled from the library's
documented semantics: `merge` defaults to an inner join that keeps the order
of the left keys and silently drops unmatched left rows; `sort_values`
(via `nargsort`) sorts ascending by the key with numpy's default
`kind='quicksort'` and, for `ascending=False`, reverses the resulting
indexer — numpy's default sort is a plain (hence stable) insertion sort on
frames of at most 16 rows and an unstable introsort beyond that, so the
stable sort model below is exact on frames of at most 16 rows, while on
larger frames only its permutation and key-sortedness consequences (which
any correct sort guarantees) are faithful, and every tie-order statement
carries an explicit 16-row bound; `Series.corr` returns NaN when fewer
than two points are available or a series has zero variance;
`DataFrame.pivot` raises `ValueError` when two rows map to the same
(index, columns) cell and never overwrites.
-/

namespace Quant

/-- A row of `raw_signals.csv` (`df_sig`): the index column `ID`, the
holding's `Industry` and its expected-return signal `Alpha_Signal`. -/
structure SignalRow where
  ID : String
  Industry : String
  Alpha_Signal : ℚ
  deriving DecidableEq

/-- A row of `PortfolioBenchmarkWeights.csv`: holding `ID` with its
benchmark and portfolio weights. -/
structure WeightRow where
  ID : String
  WeightBm : ℚ
  WeightPf : ℚ
  deriving DecidableEq

/-- A row of `stock_details.csv` (`df_stocks`): the index column `ID`,
`Industry`, realized return, active weight and return contribution.
`Active_Weight` is an `Option` so that a NaN cell can be represented
(`none`); line 117 of the source branches on `.gt(0)`, which is `False`
for NaN. -/
structure StockRow where
  ID : String
  Industry : String
  Realized_Ret : ℚ
  Active_Weight : Option ℚ
  Contribution : ℚ
  deriving DecidableEq

/-- A row of `parameter_search.csv` (`df_params`). -/
structure ParamRow where
  Gamma : ℚ
  Limit : ℚ
  Lambda : ℚ
  Sharpe : ℚ
  Active_Return : ℚ
  Active_Risk : ℚ
  deriving DecidableEq

/-- A row of the merged weight table built on line 30: the weight columns
together with the `Industry` looked up from the signal table. -/
structure WeightIndustryRow where
  ID : String
  Industry : String
  WeightBm : ℚ
  WeightPf : ℚ
  deriving DecidableEq

/-- A row of the contribution display table `df_disp` (lines 115-121). -/
structure DispRow where
  ID : String
  Industry : String
  Position : String
  Active_Weight : Option ℚ
  Realized_Ret : ℚ
  Contribution : ℚ
  deriving DecidableEq

/-- Ascending comparison of a numeric key column, the order used by
`DataFrame.sort_values`. -/
def keyLE {α : Type} (key : α → ℚ) (a b : α) : Prop := key a ≤ key b

instance {α : Type} (key : α → ℚ) : DecidableRel (keyLE key) := fun a b =>
  inferInstanceAs (Decidable (key a ≤ key b))

instance {α : Type} (key : α → ℚ) : IsTotal α (keyLE key) :=
  ⟨fun a b => le_total (key a) (key b)⟩

instance {α : Type} (key : α → ℚ) : IsTrans α (keyLE key) :=
  ⟨fun _ _ _ hab hbc => le_trans hab hbc⟩

/-- `DataFrame.sort_values(col, ascending=True)`: pandas `nargsort` argsorts
with numpy's default `kind='quicksort'`, modelled here as an insertion
sort.  numpy's introsort is itself a plain insertion sort on frames of at
most 16 elements, and any two stable sorts by the same key compute the
same list, so the model is exact on such frames; on larger frames numpy's
partition step can reorder equal keys, so only the permutation and
key-sortedness consequences of this definition (which any correct sort
guarantees) are faithful there, and every tie-order theorem below is
restricted to frames of at most 16 rows. -/
def sortValues {α : Type} (key : α → ℚ) (l : List α) : List α :=
  List.insertionSort (keyLE key) l

/-- `DataFrame.sort_values(col, ascending=False)`: pandas `nargsort` sorts
ascending and then reverses the indexer, so the descending result is the
reverse of the ascending sort.  Its reversed-tie-order consequence is
faithful only on frames of at most 16 rows, where the underlying
ascending sort is stable (see `sortValues`). -/
def sortValuesDesc {α : Type} (key : α → ℚ) (l : List α) : List α :=
  (sortValues key l).reverse

/-- Line 68: `df_sig.sort_values('Alpha_Signal', ascending=True).reset_index()`.
`reset_index` only moves `ID` from the index into a column, which the row
type already carries, so it is the identity here. -/
def df_sorted (sig : List SignalRow) : List SignalRow :=
  sortValues SignalRow.Alpha_Signal sig

/-- Line 117: `df_disp['Active_Weight'].gt(0)`.  `Series.gt` compares each
cell with 0; a NaN cell (`none`) compares `False`. -/
def awGtZero : Option ℚ → Bool
  | some v => decide (0 < v)
  | none => false

/-- Line 117: `.map({True: "Overweight", False: "Underweight"})` applied to
the `.gt(0)` result; total on both boolean values. -/
def positionLabel (aw : Option ℚ) : String :=
  if awGtZero aw then "Overweight" else "Underweight"

/-- Lines 115-117: a stock-detail row with the derived `Position` column. -/
def mkDispRow (t : StockRow) : DispRow :=
  { ID := t.ID
    Industry := t.Industry
    Position := positionLabel t.Active_Weight
    Active_Weight := t.Active_Weight
    Realized_Ret := t.Realized_Ret
    Contribution := t.Contribution }

/-- Lines 115-118: `df_disp = df_stocks.reset_index()`, the `Position`
derivation, then `df_disp.sort_values('Contribution', ascending=False)`. -/
def df_disp (stocks : List StockRow) : List DispRow :=
  sortValuesDesc DispRow.Contribution (stocks.map mkDispRow)

/-- Line 30: `pd.read_csv('PortfolioBenchmarkWeights.csv').merge(df_sig[['Industry']],
left_on='ID', right_index=True)`.  `merge` defaults to `how='inner'`: the
result keeps the order of the left (weight) keys, pairs each weight row
with every signal row whose index equals its `ID`, and silently drops
weight rows without a match; no exception is raised for unmatched keys. -/
def df_weights (weights : List WeightRow) (sig : List SignalRow) : List WeightIndustryRow :=
  weights.flatMap fun w =>
    (sig.filter fun s => s.ID == w.ID).map fun s =>
      { ID := w.ID, Industry := s.Industry, WeightBm := w.WeightBm, WeightPf := w.WeightPf }

/-- Line 49: `df_sig[['Alpha_Signal', 'Industry']].merge(df_stocks[['Realized_Ret']],
left_index=True, right_index=True)`, reduced to the two columns the
correlation on line 50 consumes.  An inner join on the `ID` index keeping
the order of the left keys; unmatched rows on either side are dropped. -/
def df_ic (sig : List SignalRow) (stocks : List StockRow) : List (ℚ × ℚ) :=
  sig.flatMap fun s =>
    (stocks.filter fun t => t.ID == s.ID).map fun t => (s.Alpha_Signal, t.Realized_Ret)

/-- Arithmetic mean of a column, as used inside Pearson correlation. -/
def mean (l : List ℚ) : ℚ := l.sum / l.length

/-- Sum of squared deviations from the mean; zero exactly when the column
has no variance (or is empty). -/
def sqDevSum (l : List ℚ) : ℚ := (l.map fun x => (x - mean l) ^ 2).sum

/-- Sum of products of deviations of the two coordinates, the numerator of
Pearson correlation (the 1/(n-1) factors cancel between numerator and
denominator). -/
def covSum (ps : List (ℚ × ℚ)) : ℚ :=
  (ps.map fun p =>
    (p.1 - mean (ps.map Prod.fst)) * (p.2 - mean (ps.map Prod.snd))).sum

/-- The condition under which `Series.corr` produces a number: at least two
aligned points and nonzero variance on both sides.  Otherwise the Pearson
formula divides zero by zero and pandas returns NaN. -/
def corrDefined (ps : List (ℚ × ℚ)) : Prop :=
  2 ≤ ps.length ∧ sqDevSum (ps.map Prod.fst) ≠ 0 ∧ sqDevSum (ps.map Prod.snd) ≠ 0

instance : DecidablePred corrDefined := fun ps =>
  inferInstanceAs (Decidable (2 ≤ ps.length
    ∧ sqDevSum (ps.map Prod.fst) ≠ 0 ∧ sqDevSum (ps.map Prod.snd) ≠ 0))

/-- Line 50: `df_ic['Alpha_Signal'].corr(df_ic['Realized_Ret'])` — Pearson
correlation of the two aligned columns.  `none` models the NaN that pandas
returns on degenerate input; no exception is raised. -/
noncomputable def pearson (ps : List (ℚ × ℚ)) : Option ℝ :=
  if corrDefined ps then
    some ((covSum ps : ℝ) /
      (Real.sqrt (sqDevSum (ps.map Prod.fst) : ℝ) * Real.sqrt (sqDevSum (ps.map Prod.snd) : ℝ)))
  else none

/-- Lines 49-50: the information coefficient displayed by `st.metric`. -/
noncomputable def ic (sig : List SignalRow) (stocks : List StockRow) : Option ℝ :=
  pearson (df_ic sig stocks)

/-- The value column selected by the `st.radio` control on line 82. -/
inductive Metric where
  | Sharpe
  | Active_Return
  deriving DecidableEq

/-- Column lookup for the selected metric. -/
def metricValue : Metric → ParamRow → ℚ
  | .Sharpe, r => r.Sharpe
  | .Active_Return, r => r.Active_Return

/-- Line 83: `df_filtered = df_params[df_params['Lambda'] < 0.0001]` — keeps
exactly the rows whose `Lambda` is strictly below the threshold. -/
def df_filtered (params : List ParamRow) : List ParamRow :=
  params.filter fun r => decide (r.Lambda < 1 / 10000)

/-- Line 85: `df_filtered.pivot(index='Gamma', columns='Limit', values=metric)`.
`DataFrame.pivot` raises `ValueError: Index contains duplicate entries,
cannot reshape` whenever two rows share the same (index, columns) pair,
whatever their value cells hold; it never overwrites.  Modelled as `none`
on duplicate (Gamma, Limit) pairs and otherwise the cell mapping. -/
def pivot (params : List ParamRow) (m : Metric) : Option (List ((ℚ × ℚ) × ℚ)) :=
  if ((df_filtered params).map fun r => (r.Gamma, r.Limit)).Nodup then
    some ((df_filtered params).map fun r => ((r.Gamma, r.Limit), metricValue m r))
  else none

/-- The seven CSV files read by `load_data` (lines 7-17), in read order. -/
def startupFiles : List String :=
  ["raw_signals.csv", "correlation_matrix.csv", "stock_cumulative_returns.csv",
   "portfolio_performance.csv", "attribution_results.csv", "stock_details.csv",
   "parameter_search.csv"]

/-- Lines 7-19: `load_data` reads the seven CSVs in order; `pd.read_csv` on
an absent file raises `FileNotFoundError` naming that file, so the first
missing file aborts the script before any page element is emitted.  The
file system is a predicate saying which file names are present. -/
def load_data (present : String → Bool) : Except String Unit :=
  match startupFiles.find? (fun f => !present f) with
  | some f => .error f
  | none => .ok ()

/-- The page elements the script emits when every file is present, in
script order (lines 21-129), coarsely labelled. -/
def pageTrace : List String :=
  ["title", "divider", "tabs", "weights_subheader", "weights_write",
   "sunburst_bm", "sunburst_pf", "ic_metric", "ic_scatter", "nav_lines",
   "signal_bar", "corr_heatmap", "param_heatmap", "frontier_scatter",
   "perf_lines", "active_area", "attr_bar", "contrib_table"]

/-- The elements already emitted when line 30 runs: the title and divider
(lines 21-22), the tab bar (line 24) and the subheader and caption of the
first tab (lines 27-29). -/
def traceBeforeWeights : List String :=
  ["title", "divider", "tabs", "weights_subheader", "weights_write"]

/-- Whole-script model for the file-availability behaviour: the pair of the
page elements emitted before the script stops and the file name carried by
the `FileNotFoundError` that stopped it, if any.  `load_data` runs on line
19, before any element is emitted; `PortfolioBenchmarkWeights.csv` is read
on line 30, inside the first tab, after `traceBeforeWeights` has already
been emitted (Streamlit renders incrementally, so those elements stay on
the page when the exception surfaces). -/
def runApp (present : String → Bool) : List String × Option String :=
  match load_data present with
  | .error f => ([], some f)
  | .ok () =>
    if present "PortfolioBenchmarkWeights.csv" then (pageTrace, none)
    else (traceBeforeWeights, some "PortfolioBenchmarkWeights.csv")

/-! Helper lemmas about the stable sort model. -/

lemma filter_key_orderedInsert {α : Type} (key : α → ℚ) (c : ℚ) (x : α) (l : List α) :
    (List.orderedInsert (keyLE key) x l).filter (fun y => key y == c)
      = if key x == c then x :: l.filter (fun y => key y == c)
        else l.filter (fun y => key y == c) := by
  induction l with
  | nil =>
    cases h : (key x == c) <;> simp [List.orderedInsert, List.filter_cons, h]
  | cons y ys ih =>
    by_cases hxy : keyLE key x y
    · rw [List.orderedInsert, if_pos hxy]
      cases h : (key x == c) <;> simp [List.filter_cons, h]
    · rw [List.orderedInsert, if_neg hxy]
      have hlt : key y < key x := not_le.mp hxy
      cases h : (key x == c) with
      | true =>
        have hyc : (key y == c) = false := by
          rw [beq_iff_eq] at h
          exact beq_eq_false_iff_ne.mpr (fun hc => absurd (hc.trans h.symm ▸ hlt) (lt_irrefl _))
        simp [List.filter_cons, h, hyc, ih]
      | false =>
        simp [List.filter_cons, h, ih]

lemma filter_key_sortValues {α : Type} (key : α → ℚ) (c : ℚ) (l : List α) :
    (sortValues key l).filter (fun y => key y == c) = l.filter (fun y => key y == c) := by
  induction l with
  | nil => rfl
  | cons x xs ih =>
    rw [sortValues, List.insertionSort, filter_key_orderedInsert]
    rw [sortValues] at ih
    cases h : (key x == c) <;> simp [List.filter_cons, h, ih]

/-- C7 (counterexample): the claim says ties in `Alpha_Signal` are broken by
`ID` ascending.  On two rows with equal signals listed as `"B"` then `"A"`,
line 68 keeps the input order, so the output IDs are `["B", "A"]` although
`"A" < "B"`: ties are not broken by `ID`. -/
theorem c7_ties_not_broken_by_id :
    (df_sorted [⟨"B", "Tech", 1⟩, ⟨"A", "Tech", 1⟩]).map SignalRow.ID = ["B", "A"]
    ∧ (["B", "A"] : List String) ≠ ["A", "B"] ∧ ("A" : String) < "B" :=
  ⟨by decide, by decide, String.lt_iff_toList_lt.mpr (List.Lex.rel (by decide))⟩

/-- C7 (amended): line 68 sorts the signal table by `Alpha_Signal` into a
total order, deterministically (a fixed function of the input), dropping
no row (the output is a permutation of the input); ties are not reordered
into `ID`-ascending order — on frames of at most 16 rows, where numpy's
default sort is a plain stable insertion sort, the rows at any fixed
signal value are exactly the input rows with that value, in input order
(beyond 16 rows the tie order is the sort implementation's internal
order, which this embedding does not model). -/
theorem c7_rank_by_signal (sig : List SignalRow) (c : ℚ) :
    List.Perm (df_sorted sig) sig
    ∧ (df_sorted sig).Sorted (fun a b => a.Alpha_Signal ≤ b.Alpha_Signal)
    ∧ (sig.length ≤ 16 →
        (df_sorted sig).filter (fun s => s.Alpha_Signal == c)
          = sig.filter (fun s => s.Alpha_Signal == c)) := by
  refine ⟨List.perm_insertionSort _ _, ?_, ?_⟩
  · exact List.sorted_insertionSort (keyLE SignalRow.Alpha_Signal) sig
  · exact fun _ => filter_key_sortValues SignalRow.Alpha_Signal c sig

/-- C7 (witness): the amended theorem applied to a two-row tied table,
discharging the 16-row bound of its tie-order clause. -/
theorem c7_witness :
    (([⟨"B", "Tech", 1⟩, ⟨"A", "Tech", 1⟩] : List SignalRow).length ≤ 16)
    ∧ (df_sorted [⟨"B", "Tech", 1⟩, ⟨"A", "Tech", 1⟩]).filter
        (fun s => s.Alpha_Signal == 1)
      = ([⟨"B", "Tech", 1⟩, ⟨"A", "Tech", 1⟩] : List SignalRow).filter
          (fun s => s.Alpha_Signal == 1) :=
  ⟨by decide,
    (c7_rank_by_signal [⟨"B", "Tech", 1⟩, ⟨"A", "Tech", 1⟩] 1).2.2 (by decide)⟩

/-- C4 (counterexample): the claim says ties in `Contribution` are broken by
`ID` ascending.  On two rows with equal contributions listed as `"A"` then
`"B"`, `sort_values(ascending=False)` reverses the stable ascending order,
so the output IDs are `["B", "A"]` although `"A" < "B"`. -/
theorem c4_ties_not_broken_by_id :
    (df_disp [⟨"A", "Tech", 0, some 1, 5⟩, ⟨"B", "Tech", 0, some 1, 5⟩]).map DispRow.ID
      = ["B", "A"]
    ∧ (["B", "A"] : List String) ≠ ["A", "B"] ∧ ("A" : String) < "B" :=
  ⟨by decide, by decide, String.lt_iff_toList_lt.mpr (List.Lex.rel (by decide))⟩

/-- C4 (amended): lines 115-118 derive the contribution table: every input
row appears exactly once (permutation) carrying
`Position = "Overweight"` exactly when `Active_Weight > 0` and
`"Underweight"` otherwise (zero and NaN included); the rows are ordered by
`Contribution` descending; ties are not broken by `ID` ascending — on
frames of at most 16 rows, where numpy's default sort is a plain stable
insertion sort, rows with equal `Contribution` appear in reversed input
order (pandas reverses the stable ascending indexer); beyond 16 rows the
tie order is the sort implementation's internal order, which this
embedding does not model. -/
theorem c4_contribution_table (stocks : List StockRow) (t : StockRow) (c : ℚ) :
    List.Perm (df_disp stocks) (stocks.map mkDispRow)
    ∧ (df_disp stocks).Sorted (fun a b => b.Contribution ≤ a.Contribution)
    ∧ (mkDispRow t).Position
        = (match t.Active_Weight with
           | some v => if 0 < v then "Overweight" else "Underweight"
           | none => "Underweight")
    ∧ (stocks.length ≤ 16 →
        (df_disp stocks).filter (fun r => r.Contribution == c)
          = ((stocks.map mkDispRow).filter (fun r => r.Contribution == c)).reverse) := by
  refine ⟨?_, ?_, ?_, ?_⟩
  · exact (List.reverse_perm _).trans (List.perm_insertionSort _ _)
  · exact List.pairwise_reverse.mpr
      (List.sorted_insertionSort (keyLE DispRow.Contribution) (stocks.map mkDispRow))
  · obtain ⟨id, ind, rr, aw, contr⟩ := t
    cases aw with
    | none => rfl
    | some v => by_cases h : 0 < v <;> simp [mkDispRow, positionLabel, awGtZero, h]
  · intro _
    simp only [df_disp, sortValuesDesc]
    rw [List.filter_reverse, filter_key_sortValues DispRow.Contribution c]

/-- C4 (witness): the amended theorem applied to a two-row tied table,
discharging the 16-row bound of its tie-order clause. -/
theorem c4_witness :
    (([⟨"A", "Tech", 0, some 1, 5⟩, ⟨"B", "Tech", 0, some 1, 5⟩] : List StockRow).length ≤ 16)
    ∧ (df_disp [⟨"A", "Tech", 0, some 1, 5⟩, ⟨"B", "Tech", 0, some 1, 5⟩]).filter
        (fun r => r.Contribution == 5)
      = ((([⟨"A", "Tech", 0, some 1, 5⟩, ⟨"B", "Tech", 0, some 1, 5⟩] : List StockRow).map
            mkDispRow).filter (fun r => r.Contribution == 5)).reverse :=
  ⟨by decide,
    (c4_contribution_table [⟨"A", "Tech", 0, some 1, 5⟩, ⟨"B", "Tech", 0, some 1, 5⟩]
      ⟨"A", "Tech", 0, some 1, 5⟩ 5).2.2.2 (by decide)⟩

/-- C10 (confirmed): the `Position` classification of line 117 is total —
every row of the displayed table carries one of the two labels — and a row
whose `Active_Weight` is NaN (`none`) is classified `"Underweight"`,
because the `.gt(0)` test is `False` on NaN. -/
theorem c10_position_total_nan_underweight (stocks : List StockRow) (t : StockRow) :
    (df_disp stocks).all
      (fun r => r.Position == "Overweight" || r.Position == "Underweight") = true
    ∧ (mkDispRow { t with Active_Weight := none }).Position = "Underweight"
    ∧ awGtZero none = false := by
  refine ⟨?_, rfl, rfl⟩
  rw [List.all_eq_true]
  intro r hr
  have hr' : r ∈ (List.insertionSort (keyLE DispRow.Contribution)
      (stocks.map mkDispRow)).reverse := hr
  have hr'' : r ∈ stocks.map mkDispRow :=
    (List.mem_insertionSort _).mp (List.mem_reverse.mp hr')
  obtain ⟨s, _, rfl⟩ := List.mem_map.mp hr''
  by_cases h : awGtZero s.Active_Weight <;> simp [mkDispRow, positionLabel, h]

/-! Helper lemmas about the inner merge of line 30. -/

lemma df_weights_cons (w : WeightRow) (ws : List WeightRow) (sig : List SignalRow) :
    df_weights (w :: ws) sig
      = ((sig.filter fun s => s.ID == w.ID).map fun s =>
          { ID := w.ID, Industry := s.Industry, WeightBm := w.WeightBm,
            WeightPf := w.WeightPf }) ++ df_weights ws sig := by
  simp [df_weights]

lemma signal_filter_id_cases (sig : List SignalRow)
    (hn : (sig.map SignalRow.ID).Nodup) (x : String) :
    ((sig.any fun s => s.ID == x) = false ∧ sig.filter (fun s => s.ID == x) = [])
    ∨ ((sig.any fun s => s.ID == x) = true
        ∧ ∃ s, sig.filter (fun s => s.ID == x) = [s]) := by
  rcases hfe : sig.filter (fun s => s.ID == x) with _ | ⟨s, rest⟩
  · left
    refine ⟨?_, hfe⟩
    rw [Bool.eq_false_iff]
    intro hany
    obtain ⟨t, ht, hpt⟩ := List.any_eq_true.mp hany
    have htf : t ∈ sig.filter (fun s => s.ID == x) := List.mem_filter.mpr ⟨ht, hpt⟩
    rw [hfe] at htf
    exact absurd htf (List.not_mem_nil t)
  · right
    have hs : s ∈ sig.filter (fun s => s.ID == x) := by
      rw [hfe]; exact List.mem_cons_self s rest
    have hsmem := (List.mem_filter.mp hs).1
    have hsid : s.ID = x := by simpa using (List.mem_filter.mp hs).2
    refine ⟨List.any_eq_true.mpr ⟨s, hsmem, by simp [hsid]⟩, s, ?_⟩
    rw [hfe]
    rcases hre : rest with _ | ⟨t, ts⟩
    · rfl
    · exfalso
      have hsub : List.Sublist ((sig.filter (fun s => s.ID == x)).map SignalRow.ID)
          (sig.map SignalRow.ID) := (List.filter_sublist sig).map SignalRow.ID
      have hnd := hn.sublist hsub
      rw [hfe, hre] at hnd
      have ht : t ∈ sig.filter (fun s => s.ID == x) := by
        rw [hfe, hre]
        exact List.mem_cons_of_mem _ (List.mem_cons_self t ts)
      have htid : t.ID = x := by simpa using (List.mem_filter.mp ht).2
      have : s.ID ∉ (t :: ts).map SignalRow.ID := (List.nodup_cons.mp hnd).1
      exact this (by simp [hsid, htid])

/-- C1 (counterexample): with a weight row `ID="X"` absent from the signal
rows, line 30 raises nothing: the merge returns normally and the `"X"` row
is silently dropped (here the partial output keeps only the matched `"Y"`
row). -/
theorem c1_unmatched_dropped_silently :
    df_weights [⟨"X", 1, 2⟩, ⟨"Y", 3, 4⟩] [⟨"Y", "Tech", 1⟩]
      = [⟨"Y", "Tech", 3, 4⟩] := by decide

/-- C1 (amended): line 30 performs an inner join on `ID` that silently
drops (never errors on) weight rows whose `ID` has no matching signal row:
when the signal IDs are distinct, the merged rows are exactly the weight
rows whose `ID` matches some signal row, in input order. -/
theorem c1_merge_keeps_exactly_matched (ws : List WeightRow) (sig : List SignalRow)
    (hn : (sig.map SignalRow.ID).Nodup) :
    (df_weights ws sig).map WeightIndustryRow.ID
      = (ws.filter fun w => sig.any fun s => s.ID == w.ID).map WeightRow.ID := by
  induction ws with
  | nil => rfl
  | cons w ws ih =>
    rw [df_weights_cons, List.map_append, List.filter_cons]
    rcases signal_filter_id_cases sig hn w.ID with ⟨ha, hf⟩ | ⟨ha, s, hf⟩
    · simp [hf, ha, ih]
    · simp [hf, ha, ih]

/-- C1 (witness): the amended theorem applied to a weight table with an
unmatched row `"X"` and a matched row `"Y"`. -/
theorem c1_witness :
    (([⟨"Y", "Tech", 1⟩] : List SignalRow).map SignalRow.ID).Nodup
    ∧ (df_weights [⟨"X", 1, 2⟩, ⟨"Y", 3, 4⟩] [⟨"Y", "Tech", 1⟩]).map WeightIndustryRow.ID
        = (([⟨"X", 1, 2⟩, ⟨"Y", 3, 4⟩] : List WeightRow).filter fun w =>
            ([⟨"Y", "Tech", 1⟩] : List SignalRow).any fun s => s.ID == w.ID).map
            WeightRow.ID :=
  ⟨by decide, c1_merge_keeps_exactly_matched _ _ (by decide)⟩

/-- C5 (counterexample): the weight table whose `WeightBm` column sums to 3
and `WeightPf` column sums to 7 — far beyond the 1e-6 tolerance around 1 —
is merged by line 30 without any `InvariantError`: no weight-sum check
exists in the code. -/
theorem c5_no_invariant_check :
    df_weights [⟨"A", 3, 7⟩] [⟨"A", "Tech", 1⟩] = [⟨"A", "Tech", 3, 7⟩]
    ∧ (([⟨"A", 3, 7⟩] : List WeightRow).map WeightRow.WeightBm).sum = 3
    ∧ ¬|(3 : ℚ) - 1| ≤ 1 / 1000000 := by
  refine ⟨by decide, by simp, by norm_num⟩

/-- C5 (amended): the code never checks the weight sums (no
`InvariantError` exists); what holds instead is sum preservation: when the
signal IDs are distinct and every weight row's `ID` matches a signal row,
the merged table's `WeightBm` and `WeightPf` columns sum to exactly the
input columns' sums, so inputs summing to 1.0 give outputs summing to 1.0
(trivially within the 1e-6 tolerance). -/
theorem c5_sums_preserved (ws : List WeightRow) (sig : List SignalRow)
    (hn : (sig.map SignalRow.ID).Nodup)
    (hall : ∀ w ∈ ws, (sig.any fun s => s.ID == w.ID) = true) :
    ((df_weights ws sig).map WeightIndustryRow.WeightBm).sum
        = (ws.map WeightRow.WeightBm).sum
    ∧ ((df_weights ws sig).map WeightIndustryRow.WeightPf).sum
        = (ws.map WeightRow.WeightPf).sum := by
  induction ws with
  | nil => exact ⟨rfl, rfl⟩
  | cons w ws ih =>
    have hw := hall w (List.mem_cons_self w ws)
    have ih' := ih fun x hx => hall x (List.mem_cons_of_mem w hx)
    rcases signal_filter_id_cases sig hn w.ID with ⟨ha, _⟩ | ⟨_, s, hf⟩
    · rw [hw] at ha
      exact absurd ha (by simp)
    · constructor
      · rw [df_weights_cons, List.map_append, List.sum_append, hf]
        simp [ih'.1]
      · rw [df_weights_cons, List.map_append, List.sum_append, hf]
        simp [ih'.2]

/-- C5 (witness): the amended theorem applied to a two-row weight table
both of whose rows match the signal table. -/
theorem c5_witness :
    (([⟨"A", "Tech", 1⟩, ⟨"B", "Fin", 2⟩] : List SignalRow).map SignalRow.ID).Nodup
    ∧ (∀ w ∈ ([⟨"A", 1, 0⟩, ⟨"B", 0, 1⟩] : List WeightRow),
        (([⟨"A", "Tech", 1⟩, ⟨"B", "Fin", 2⟩] : List SignalRow).any fun s =>
          s.ID == w.ID) = true)
    ∧ ((df_weights [⟨"A", 1, 0⟩, ⟨"B", 0, 1⟩]
          [⟨"A", "Tech", 1⟩, ⟨"B", "Fin", 2⟩]).map WeightIndustryRow.WeightBm).sum
        = (([⟨"A", 1, 0⟩, ⟨"B", 0, 1⟩] : List WeightRow).map WeightRow.WeightBm).sum
    ∧ ((df_weights [⟨"A", 1, 0⟩, ⟨"B", 0, 1⟩]
          [⟨"A", "Tech", 1⟩, ⟨"B", "Fin", 2⟩]).map WeightIndustryRow.WeightPf).sum
        = (([⟨"A", 1, 0⟩, ⟨"B", 0, 1⟩] : List WeightRow).map WeightRow.WeightPf).sum :=
  ⟨by decide, by decide,
    (c5_sums_preserved _ _ (by decide) (by decide)).1,
    (c5_sums_preserved _ _ (by decide) (by decide)).2⟩

/-- C2 (counterexample): with exactly one matched row, line 50 fails with
nothing: `Series.corr` returns NaN (`none`), not an
`InsufficientDataError`. -/
theorem c2_single_row_yields_nan :
    ic [⟨"A", "Tech", 1⟩] [⟨"A", "Tech", 2, some 1, 1⟩] = none := by
  simp only [ic, pearson]
  rw [if_neg]
  exact fun hd => absurd hd.1 (by decide)

/-- C2 (amended): whenever the inner join of line 49 yields fewer than two
matched rows, or either aligned series has zero variance, the correlation
of line 50 evaluates to NaN (modelled `none`); no error is raised. -/
theorem c2_degenerate_ic_is_nan (sig : List SignalRow) (stocks : List StockRow)
    (h : (df_ic sig stocks).length < 2
      ∨ sqDevSum ((df_ic sig stocks).map Prod.fst) = 0
      ∨ sqDevSum ((df_ic sig stocks).map Prod.snd) = 0) :
    ic sig stocks = none := by
  simp only [ic, pearson]
  rw [if_neg]
  rintro ⟨h1, h2, h3⟩
  rcases h with h | h | h
  · omega
  · exact h2 h
  · exact h3 h

/-- C2 (witness): the amended theorem applied to a one-row join. -/
theorem c2_witness :
    ((df_ic [⟨"A", "Tech", 1⟩] [⟨"A", "Tech", 2, some 1, 1⟩]).length < 2
      ∨ sqDevSum ((df_ic [⟨"A", "Tech", 1⟩] [⟨"A", "Tech", 2, some 1, 1⟩]).map Prod.fst) = 0
      ∨ sqDevSum ((df_ic [⟨"A", "Tech", 1⟩] [⟨"A", "Tech", 2, some 1, 1⟩]).map Prod.snd) = 0)
    ∧ ic [⟨"A", "Tech", 1⟩] [⟨"A", "Tech", 2, some 1, 1⟩] = none :=
  ⟨Or.inl (by decide), c2_degenerate_ic_is_nan _ _ (Or.inl (by decide))⟩

/-- C9 (confirmed): the Pearson correlation computed on line 50 is exactly
symmetric in its two series — swapping every aligned pair leaves the
result unchanged (both the NaN condition and the value are symmetric). -/
theorem c9_pearson_symmetric (ps : List (ℚ × ℚ)) :
    pearson (ps.map Prod.swap) = pearson ps := by
  have hfst : (ps.map Prod.swap).map Prod.fst = ps.map Prod.snd := by
    rw [List.map_map]
    exact List.map_congr_left fun p _ => Prod.fst_swap
  have hsnd : (ps.map Prod.swap).map Prod.snd = ps.map Prod.fst := by
    rw [List.map_map]
    exact List.map_congr_left fun p _ => Prod.snd_swap
  have hcov : covSum (ps.map Prod.swap) = covSum ps := by
    unfold covSum
    rw [hfst, hsnd, List.map_map]
    refine congrArg List.sum (List.map_congr_left fun p _ => ?_)
    simp only [Function.comp_apply, Prod.fst_swap, Prod.snd_swap]
    ring
  have hdef : corrDefined (ps.map Prod.swap) ↔ corrDefined ps := by
    unfold corrDefined
    rw [hfst, hsnd, List.length_map]
    tauto
  by_cases h : corrDefined ps
  · simp only [pearson]
    rw [if_pos (hdef.mpr h), if_pos h, hcov, hfst, hsnd, mul_comm]
  · simp only [pearson]
    rw [if_neg (fun hc => h (hdef.mp hc)), if_neg h]

/-- C3 (confirmed): lines 83-85 first keep exactly the rows with `Lambda`
strictly below the threshold (`df_filtered`), and the pivot then errors
(returns no grid, modelling pandas' `ValueError` on duplicate index
entries) whenever two surviving rows share the same (Gamma, Limit) pair,
whatever their value columns hold — it never silently overwrites. -/
theorem c3_pivot_errors_on_duplicates (params : List ParamRow) (m : Metric)
    (r₁ r₂ : ParamRow) (hsub : List.Sublist [r₁, r₂] (df_filtered params))
    (hG : r₁.Gamma = r₂.Gamma) (hL : r₁.Limit = r₂.Limit) :
    pivot params m = none := by
  simp only [pivot]
  rw [if_neg]
  intro hnd
  have h2 := hnd.sublist (hsub.map fun r => (r.Gamma, r.Limit))
  rw [List.map_cons, List.map_cons, List.map_nil] at h2
  have := (List.nodup_cons.mp h2).1
  exact this (by simp [hG, hL])

/-- C3 (witness): the theorem applied to two rows that both survive the
`Lambda` filter, share (Gamma, Limit) = (1, 2), and carry different
`Sharpe` values (3 versus 9). -/
theorem c3_witness :
    List.Sublist [(⟨1, 2, 0, 3, 4, 5⟩ : ParamRow), ⟨1, 2, 0, 9, 4, 5⟩]
        (df_filtered [⟨1, 2, 0, 3, 4, 5⟩, ⟨1, 2, 0, 9, 4, 5⟩])
    ∧ (⟨1, 2, 0, 3, 4, 5⟩ : ParamRow).Gamma = (⟨1, 2, 0, 9, 4, 5⟩ : ParamRow).Gamma
    ∧ (⟨1, 2, 0, 3, 4, 5⟩ : ParamRow).Limit = (⟨1, 2, 0, 9, 4, 5⟩ : ParamRow).Limit
    ∧ (⟨1, 2, 0, 3, 4, 5⟩ : ParamRow).Sharpe ≠ (⟨1, 2, 0, 9, 4, 5⟩ : ParamRow).Sharpe
    ∧ pivot [⟨1, 2, 0, 3, 4, 5⟩, ⟨1, 2, 0, 9, 4, 5⟩] Metric.Sharpe = none := by
  have hfil : df_filtered [(⟨1, 2, 0, 3, 4, 5⟩ : ParamRow), ⟨1, 2, 0, 9, 4, 5⟩]
      = [⟨1, 2, 0, 3, 4, 5⟩, ⟨1, 2, 0, 9, 4, 5⟩] := by
    simp only [df_filtered, List.filter_cons, List.filter_nil]
    norm_num
  have hsub : List.Sublist [(⟨1, 2, 0, 3, 4, 5⟩ : ParamRow), ⟨1, 2, 0, 9, 4, 5⟩]
      (df_filtered [⟨1, 2, 0, 3, 4, 5⟩, ⟨1, 2, 0, 9, 4, 5⟩]) := by
    rw [hfil]
  refine ⟨hsub, rfl, rfl, by norm_num, ?_⟩
  exact c3_pivot_errors_on_duplicates _ Metric.Sharpe _ _ hsub rfl rfl

/-- C6 (counterexample): `PortfolioBenchmarkWeights.csv` is a required
input (the benchmark/portfolio raw weights table), yet its absence does
not halt startup with no further action: the script renders the title, the
tab bar and the first tab's headers (a partial render) before failing at
line 30 with the error naming the file. -/
theorem c6_weights_file_fails_after_partial_render :
    runApp (fun f => !(f == "PortfolioBenchmarkWeights.csv"))
      = (traceBeforeWeights, some "PortfolioBenchmarkWeights.csv")
    ∧ traceBeforeWeights ≠ [] :=
  ⟨rfl, by decide⟩

/-- C6 (amended): for the seven files read by `load_data` at startup, a
missing file does halt the script before anything is rendered, with an
error naming a missing startup file; the weights CSV of line 30, however,
is read only during rendering of the first tab (see the counterexample). -/
theorem c6_startup_missing_file_halts (present : String → Bool) (f : String)
    (hf : f ∈ startupFiles) (hmiss : present f = false) :
    (runApp present).1 = []
    ∧ ∃ g, (runApp present).2 = some g ∧ g ∈ startupFiles ∧ present g = false := by
  have hsome : (startupFiles.find? fun x => !present x).isSome := by
    rw [List.find?_isSome]
    exact ⟨f, hf, by simp [hmiss]⟩
  obtain ⟨g, hg⟩ := Option.isSome_iff_exists.mp hsome
  have hpg : present g = false := by simpa using List.find?_some hg
  have hmem := List.mem_of_find?_eq_some hg
  have hload : load_data present = .error g := by
    rw [load_data, hg]
  rw [runApp, hload]
  exact ⟨rfl, g, rfl, hmem, hpg⟩

/-- C6 (witness): the amended theorem applied to a file system missing
exactly the portfolio-performance file. -/
theorem c6_witness :
    ("portfolio_performance.csv" ∈ startupFiles)
    ∧ (fun f => !(f == "portfolio_performance.csv")) "portfolio_performance.csv" = false
    ∧ ((runApp (fun f => !(f == "portfolio_performance.csv"))).1 = []
        ∧ ∃ g, (runApp (fun f => !(f == "portfolio_performance.csv"))).2 = some g
            ∧ g ∈ startupFiles
            ∧ (fun f => !(f == "portfolio_performance.csv")) g = false) :=
  ⟨by decide, by decide,
    c6_startup_missing_file_halts (fun f => !(f == "portfolio_performance.csv"))
      "portfolio_performance.csv" (by decide) (by decide)⟩

end Quant
